import Mathlib

/-!
Verification development for the `lvgl_port_linux` simulator launcher
(`src/main.c`).

The launcher's logic is: read two environment variables as window-size
defaults, parse short command-line options with `getopt(argc, argv,
"b:fmW:H:BVh")` into a global settings record and a selected-backend
pointer, then initialize the LVGL toolkit, initialize the selected display
backend (terminating on failure), start the widget demo and enter the
backend's blocking run loop.  An alternate `main` (compiled when
`USE_STANDARD` is not defined) ignores the command line, hardcodes the
backend name "FBDEV", and spins forever after the run loop returns.

The embedding below follows GNU libc behaviour for `getopt`:
  * argument scanning effectively processes every option element in order,
    skipping non-option elements (GNU permutation), and stops at the exact
    element "--";
  * an element "-" alone is a non-option;
  * since the option string does not begin with ':', a missing required
    argument is reported exactly like an unknown option: `getopt` returns
    '?' with `optopt` set, so the `case ':'` arm in the C switch is dead;
  * when an option that requires an argument is the last character of its
    element, the next `argv` element is consumed unconditionally as the
    argument.

C `int` overflow in `atoi` is undefined behaviour; the embedding uses
unbounded `Int`.  External calls that are not part of `src/` are modelled
explicitly and marked as such in their doc comments.
-/

/-- Characters accepted by C `isspace` in the default locale, as skipped by
`atoi` before the optional sign. -/
def isSpaceC (c : Char) : Bool :=
  c = ' ' || c = '\t' || c = '\n' || c = '\x0b' || c = '\x0c' || c = '\r'

/-- Drop the leading run of C whitespace characters. -/
def dropSpaces : List Char → List Char
  | [] => []
  | c :: cs => if isSpaceC c then dropSpaces cs else c :: cs

/-- Consume a maximal run of decimal digits, accumulating their value onto
`acc`; stops at the first non-digit, exactly as the digit loop of C
`atoi`. -/
def digitsAcc : List Char → Int → Int
  | [], acc => acc
  | c :: cs, acc =>
    if c.isDigit then digitsAcc cs (acc * 10 + ((c.toNat - '0'.toNat : Nat) : Int))
    else acc

/-- Interpretation of an optional leading sign followed by digits, the part
of C `atoi` after whitespace skipping. -/
def atoiSigned : List Char → Int
  | '-' :: rest => - digitsAcc rest 0
  | '+' :: rest => digitsAcc rest 0
  | l => digitsAcc l 0

/-- Model of C `atoi`: skip whitespace, read an optional sign and then a
maximal digit run; a string with no leading digits yields 0.  Overflow is
undefined behaviour in C and is modelled with unbounded `Int`. -/
def atoi (s : String) : Int :=
  atoiSigned (dropSpaces s.toList)

/-- The simulator settings record (`simulator_settings_t settings`, the
global written by `configure_simulator`). -/
structure SimSettings where
  window_width : Int
  window_height : Int
  fullscreen : Bool
  maximize : Bool
deriving Repr, DecidableEq

/-- State mutated by `configure_simulator`: the `settings` global, the
`selected_backend` global, and a ghost log recording each option processed
by the `getopt` loop together with its argument (used only to state
theorems; it mirrors no C storage). -/
structure ConfigState where
  settings : SimSettings
  selected_backend : Option String
  optLog : List (Char × Option String)
deriving Repr, DecidableEq

/-- Modelled from the spec: the static backend registry of the Backend
Dispatcher (`src/lib/driver_backends.c`, not part of `src/`).  The spec
names the framebuffer ("FBDEV", the name used literally in `main.c`), SDL,
and the evdev input backend ("EVDEV", also literal in `main.c`). -/
def supportedBackends : List String := ["FBDEV", "SDL", "EVDEV"]

/-- Modelled from the spec: `driver_backends_is_supported` (outside `src/`)
returns nonzero exactly when the name is in the static registry; `main.c`
treats a 0 return as "no such backend". -/
def driver_backends_is_supported (name : String) : Int :=
  if name ∈ supportedBackends then 1 else 0

/-- Modelled from the spec: the name of the default backend the dispatcher
picks when it is invoked with a NULL backend name. -/
def defaultBackendName : String := "FBDEV"

/-- Modelled from the spec: the Backend Dispatcher selects "a default or
named backend from a static list"; invoked with NULL it picks the
default. -/
def dispatchedBackendName (sel : Option String) : String :=
  sel.getD defaultBackendName

/-- The ways `configure_simulator` terminates the process early: the three
informational options exit with `EXIT_SUCCESS`; an unsupported backend name
or a `getopt` failure (`'?'`, covering both unknown options and missing
required arguments) call `die`, which exits with a nonzero status. -/
inductive ExitKind where
  | usage
  | version
  | listBackends
  | errNoBackend (name : String)
  | errOpt (c : Char)
deriving Repr, DecidableEq

/-- Process exit status for each early-exit path; `die` (from
`simulator_util.h`, outside `src/`) is modelled from the spec as printing a
diagnostic and exiting with a nonzero status, taken to be `EXIT_FAILURE =
1`. -/
def exitCode : ExitKind → Nat
  | .usage => 0
  | .version => 0
  | .listBackends => 0
  | .errNoBackend _ => 1
  | .errOpt _ => 1

/-- Diagnostic text printed on each early-exit path.  The `errNoBackend`
and `errOpt` strings are the `die` format strings of `main.c` with the
argument substituted; the three informational texts summarize output whose
exact content comes from code outside `src/` (LVGL version macros,
`driver_backends_print_supported`). -/
def exitMessage : ExitKind → String
  | .usage => "lvglsim [-V] [-B] [-f] [-m] [-b backend_name] [-W window_width] [-H window_height]"
  | .version => "LVGL version"
  | .listBackends => "supported backends"
  | .errNoBackend n => "error no such backend: " ++ n ++ "\n"
  | .errOpt c => "Unknown option -" ++ String.mk [c] ++ ".\n"

/-- Append one processed option to the ghost log. -/
def logOpt (c : Char) (a : Option String) (st : ConfigState) : ConfigState :=
  { st with optLog := st.optLog ++ [(c, a)] }

/-- Effect of `settings.fullscreen = true` (case 'f'). -/
def setFullscreen (st : ConfigState) : ConfigState :=
  { st with settings := { st.settings with fullscreen := true } }

/-- Effect of `settings.maximize = true` (case 'm'). -/
def setMaximize (st : ConfigState) : ConfigState :=
  { st with settings := { st.settings with maximize := true } }

/-- Effect of `settings.window_width = atoi(optarg)` (case 'W'). -/
def setWindowWidth (w : Int) (st : ConfigState) : ConfigState :=
  { st with settings := { st.settings with window_width := w } }

/-- Effect of `settings.window_height = atoi(optarg)` (case 'H'). -/
def setWindowHeight (h : Int) (st : ConfigState) : ConfigState :=
  { st with settings := { st.settings with window_height := h } }

/-- Effect of `selected_backend = strdup(optarg)` (case 'b'). -/
def setSelectedBackend (n : String) (st : ConfigState) : ConfigState :=
  { st with selected_backend := some n }

/-- Result of scanning one option element (a cluster of option characters
after the leading '-'): either the process exits, or scanning of the
command line continues, having consumed the lookahead `argv` element as an
option argument (`contTail`) or not (`contSame`). -/
inductive ClusterOut where
  | exitC (k : ExitKind) (st : ConfigState)
  | contSame (st : ConfigState)
  | contTail (st : ConfigState)
deriving Repr, DecidableEq

/-- Scan the option characters of one option element, dispatching exactly
like the `switch` of `configure_simulator`.  `la` is the next `argv`
element, consumed as the argument of 'b'/'W'/'H' when the option character
is last in its element; otherwise the rest of the element is the argument.
If no argument is available, `getopt` yields '?' (the option string has no
leading ':'), which the `switch` answers with `print_usage` and
`die("Unknown option -%c.\n", optopt)`. -/
def parseCluster : List Char → Option String → ConfigState → ClusterOut
  | [], _, st => .contSame st
  | c :: cs, la, st =>
    if c = 'h' then .exitC .usage st
    else if c = 'V' then .exitC .version st
    else if c = 'B' then .exitC .listBackends st
    else if c = 'f' then parseCluster cs la (logOpt 'f' none (setFullscreen st))
    else if c = 'm' then parseCluster cs la (logOpt 'm' none (setMaximize st))
    else if c = 'b' then
      match cs, la with
      | [], none => .exitC (.errOpt 'b') st
      | [], some a =>
        if driver_backends_is_supported a = 0 then .exitC (.errNoBackend a) st
        else .contTail (logOpt 'b' (some a) (setSelectedBackend a st))
      | c2 :: cs2, _ =>
        if driver_backends_is_supported (String.mk (c2 :: cs2)) = 0 then
          .exitC (.errNoBackend (String.mk (c2 :: cs2))) st
        else .contSame (logOpt 'b' (some (String.mk (c2 :: cs2)))
          (setSelectedBackend (String.mk (c2 :: cs2)) st))
    else if c = 'W' then
      match cs, la with
      | [], none => .exitC (.errOpt 'W') st
      | [], some a => .contTail (logOpt 'W' (some a) (setWindowWidth (atoi a) st))
      | c2 :: cs2, _ =>
        .contSame (logOpt 'W' (some (String.mk (c2 :: cs2)))
          (setWindowWidth (atoi (String.mk (c2 :: cs2))) st))
    else if c = 'H' then
      match cs, la with
      | [], none => .exitC (.errOpt 'H') st
      | [], some a => .contTail (logOpt 'H' (some a) (setWindowHeight (atoi a) st))
      | c2 :: cs2, _ =>
        .contSame (logOpt 'H' (some (String.mk (c2 :: cs2)))
          (setWindowHeight (atoi (String.mk (c2 :: cs2))) st))
    else .exitC (.errOpt c) st

/-- Classification of one `argv` element by `getopt`: the exact element
"--" stops option scanning; an element beginning with '-' and holding at
least one further character is an option element whose characters after the
leading '-' are scanned (so "--x" scans the cluster "-x", whose first
character '-' is an unknown option, matching glibc); anything else,
including "" and "-", is a non-option element that GNU permutation skips
over. -/
inductive TokClass where
  | ddash
  | optionElem (cs : List Char)
  | operand
deriving Repr, DecidableEq

/-- Classify one `argv` element as `getopt` does. -/
def classifyTok (tok : String) : TokClass :=
  match tok.toList with
  | '-' :: '-' :: [] => .ddash
  | '-' :: c :: cs => .optionElem (c :: cs)
  | _ => .operand

/-- Result of `configure_simulator`: either the process exited early (with
the global state it held at that moment), or the `getopt` loop finished and
the function returned normally. -/
inductive ConfigResult where
  | exited (k : ExitKind) (st : ConfigState)
  | ok (st : ConfigState)
deriving Repr, DecidableEq

/-- The `while getopt` loop of `configure_simulator` over the `argv`
elements after `argv[0]`, with GNU argument permutation modelled as
skipping non-option elements. -/
def parseOpts : List String → ConfigState → ConfigResult
  | [], st => .ok st
  | tok :: rest, st =>
    match classifyTok tok with
    | .ddash => .ok st
    | .optionElem cs =>
      match parseCluster cs rest.head? st with
      | .exitC k st' => .exited k st'
      | .contSame st' => parseOpts rest st'
      | .contTail st' =>
        match rest with
        | [] => .ok st'
        | _ :: rest2 => parseOpts rest2 st'
    | .operand => parseOpts rest st

/-- Settings value after the two `getenv` lines of `configure_simulator`:
`settings.window_width = atoi(env_w ? env_w : "800")` and the analogue for
the height; the `fullscreen`/`maximize` fields start false because
`settings` is a zero-initialized C global (defined in
`lv_linux_backend.c`, outside `src/`). -/
def initialSettings (env_w env_h : Option String) : SimSettings :=
  { window_width := atoi (env_w.getD "800")
    window_height := atoi (env_h.getD "480")
    fullscreen := false
    maximize := false }

/-- Global state at the start of the `getopt` loop: `selected_backend =
NULL`, environment-derived settings, empty ghost log. -/
def initialConfigState (env_w env_h : Option String) : ConfigState :=
  { settings := initialSettings env_w env_h
    selected_backend := none
    optLog := [] }

/-- Model of `configure_simulator(argc, argv)`: `env_w`/`env_h` are the
values of `LV_SIM_WINDOW_WIDTH`/`LV_SIM_WINDOW_HEIGHT` (`none` when unset),
`args` is `argv` without `argv[0]`.  The `driver_backends_register()` call
has no effect observable in this state. -/
def configure_simulator (env_w env_h : Option String) (args : List String) : ConfigResult :=
  parseOpts args (initialConfigState env_w env_h)

/-- Settings field of a normally-returning configuration, `none` when the
process exited during configuration. -/
def configOkSettings : ConfigResult → Option SimSettings
  | .ok st => some st.settings
  | .exited _ _ => none

/-- Exit status of a configuration run that terminated the process early,
`none` when `configure_simulator` returned normally. -/
def configResultExitCode : ConfigResult → Option Nat
  | .exited k _ => some (exitCode k)
  | .ok _ => none

/-- Arguments of the 'b' options recorded in a ghost log, in processing
order. -/
def bArgs (log : List (Char × Option String)) : List String :=
  log.filterMap fun p => if p.1 = 'b' then p.2 else none

/-- Invariant tying the `selected_backend` global to the ghost log: it
holds the argument of the last processed 'b' option (or NULL if none), and
every processed 'b' argument passed the registry check. -/
def selInv (st : ConfigState) : Prop :=
  st.selected_backend = (bArgs st.optLog).getLast? ∧
    ∀ n ∈ bArgs st.optLog, driver_backends_is_supported n ≠ 0

/-- Observable actions of the statements of `main` after
`configure_simulator` returns. -/
inductive MainEvent where
  | lvInitEv
  | backendInitEv (name : Option String) (result : Int)
  | dieEv (msg : String)
  | demoWidgetsEv
  | slideshowEv
  | runLoopEv
deriving Repr, DecidableEq

/-- Process state threaded through the statements of `main`: the two
globals written by `configure_simulator`, the events performed so far, and
the exit status once the process has terminated. -/
structure MainState where
  settings : SimSettings
  selected_backend : Option String
  events : List MainEvent
  exitedWith : Option Nat
deriving Repr, DecidableEq

/-- Record one observable action. -/
def emit (e : MainEvent) (st : MainState) : MainState :=
  { st with events := st.events ++ [e] }

/-- A statement of `main` runs only while the process has not already
exited. -/
def guardStep (f : MainState → MainState) (st : MainState) : MainState :=
  if st.exitedWith.isSome then st else f st

/-- The `lv_init()` call. -/
def lv_init_step : MainState → MainState :=
  guardStep fun st => emit .lvInitEv st

/-- The `driver_backends_init_backend(selected_backend)` call and the
surrounding `if (... == -1) die(...)`.  The initialization routine itself
lives outside `src/`; its return value is supplied by the `oracle`
parameter, keyed by the backend-name argument.  `die` is modelled from the
spec as a diagnostic followed by a nonzero exit. -/
def backend_init_step (oracle : Option String → Int) : MainState → MainState :=
  guardStep fun st =>
    let r := oracle st.selected_backend
    let st' := emit (.backendInitEv st.selected_backend r) st
    if r = -1 then
      { emit (.dieEv "Failed to initialize display backend") st' with exitedWith := some 1 }
    else st'

/-- The `LV_USE_EVDEV` conditional block: a second
`driver_backends_init_backend("EVDEV")` call, compiled in only when the
build flag (parameter `useEvdev`) is set. -/
def evdev_init_step (useEvdev : Bool) (oracle : Option String → Int) :
    MainState → MainState :=
  fun st =>
    if useEvdev then
      guardStep (fun st1 =>
        let r := oracle (some "EVDEV")
        let st2 := emit (.backendInitEv (some "EVDEV") r) st1
        if r = -1 then
          { emit (.dieEv "Failed to initialize evdev") st2 with exitedWith := some 1 }
        else st2) st
    else st

/-- The `lv_demo_widgets()` call. -/
def demo_step : MainState → MainState :=
  guardStep fun st => emit .demoWidgetsEv st

/-- The `lv_demo_widgets_start_slideshow()` call. -/
def slideshow_step : MainState → MainState :=
  guardStep fun st => emit .slideshowEv st

/-- The `driver_backends_run_loop()` call. -/
def run_loop_step : MainState → MainState :=
  guardStep fun st => emit .runLoopEv st

/-- The statements of the `USE_STANDARD` `main` after `configure_simulator`
returns, in program order. -/
def mainAfterConfigure (useEvdev : Bool) (oracle : Option String → Int)
    (st : MainState) : MainState :=
  run_loop_step (slideshow_step (demo_step (evdev_init_step useEvdev oracle
    (backend_init_step oracle (lv_init_step st)))))

/-- Process state right after `configure_simulator` returns normally. -/
def stateOfConfig (cst : ConfigState) : MainState :=
  { settings := cst.settings
    selected_backend := cst.selected_backend
    events := []
    exitedWith := none }

/-- Process state when `configure_simulator` itself terminated the
process. -/
def exitStateOf (k : ExitKind) (cst : ConfigState) : MainState :=
  { settings := cst.settings
    selected_backend := cst.selected_backend
    events := []
    exitedWith := some (exitCode k) }

/-- The `USE_STANDARD` `main`: configure, then run the remaining statements
unless configuration already exited the process. -/
def mainRun (env_w env_h : Option String) (args : List String) (useEvdev : Bool)
    (oracle : Option String → Int) : MainState :=
  match configure_simulator env_w env_h args with
  | .exited k cst => exitStateOf k cst
  | .ok cst => mainAfterConfigure useEvdev oracle (stateOfConfig cst)

/-- Observable actions of the alternate `main` (the build where
`USE_STANDARD` is not defined). -/
inductive AltEvent where
  | registerEv
  | lvInitAltEv
  | backendInitAltEv (name : String) (result : Int)
  | dieAltEv (msg : String)
  | drawCharEv
  | runLoopAltEv
deriving Repr, DecidableEq

/-- Outcome of the alternate `main`: the process died in `die`, is still
inside the trailing `while (1) { }` loop, or returned from `main` (which
the code can never do). -/
inductive AltOutcome where
  | died (events : List AltEvent)
  | running (events : List AltEvent)
  | returned (code : Int) (events : List AltEvent)
deriving Repr, DecidableEq

/-- The empty-bodied `while (1) { }` loop, run for `fuel` iterations: it
produces an exit value only by leaving the loop, which no iteration count
achieves. -/
def spinReturn : Nat → Option Int
  | 0 => none
  | n + 1 => spinReturn n

/-- The alternate `main`: `argc`, `argv` and the environment are parameters
only to state that the code never consults them; the backend name is the
literal "FBDEV"; `oracle` supplies the `driver_backends_init_backend`
return value; `fuel` bounds the iterations of the trailing infinite
loop. -/
def altMainRun (argc : Nat) (argv : List String) (env_w env_h : Option String)
    (oracle : Option String → Int) (fuel : Nat) : AltOutcome :=
  let sel := "FBDEV"
  let r := oracle (some sel)
  let ev1 := [AltEvent.registerEv, AltEvent.lvInitAltEv, AltEvent.backendInitAltEv sel r]
  if r = -1 then .died (ev1 ++ [.dieAltEv "Failed to initialize display backend"])
  else
    let ev2 := ev1 ++ [.drawCharEv, .runLoopAltEv]
    match spinReturn fuel with
    | none => .running ev2
    | some c => .returned c ev2

/-! Equation helpers: one-step reductions of `parseCluster`, all
definitional. -/

theorem parseCluster_h_eq (cs : List Char) (la : Option String) (st : ConfigState) :
    parseCluster ('h' :: cs) la st = .exitC .usage st := rfl

theorem parseCluster_V_eq (cs : List Char) (la : Option String) (st : ConfigState) :
    parseCluster ('V' :: cs) la st = .exitC .version st := rfl

theorem parseCluster_B_eq (cs : List Char) (la : Option String) (st : ConfigState) :
    parseCluster ('B' :: cs) la st = .exitC .listBackends st := rfl

theorem parseCluster_f_eq (cs : List Char) (la : Option String) (st : ConfigState) :
    parseCluster ('f' :: cs) la st = parseCluster cs la (logOpt 'f' none (setFullscreen st)) := rfl

theorem parseCluster_m_eq (cs : List Char) (la : Option String) (st : ConfigState) :
    parseCluster ('m' :: cs) la st = parseCluster cs la (logOpt 'm' none (setMaximize st)) := rfl

theorem parseCluster_b_last_none (st : ConfigState) :
    parseCluster ['b'] none st = .exitC (.errOpt 'b') st := rfl

theorem parseCluster_b_last_some (a : String) (st : ConfigState) :
    parseCluster ['b'] (some a) st =
      if driver_backends_is_supported a = 0 then .exitC (.errNoBackend a) st
      else .contTail (logOpt 'b' (some a) (setSelectedBackend a st)) := rfl

theorem parseCluster_b_inline (c2 : Char) (cs2 : List Char) (la : Option String)
    (st : ConfigState) :
    parseCluster ('b' :: c2 :: cs2) la st =
      if driver_backends_is_supported (String.mk (c2 :: cs2)) = 0 then
        .exitC (.errNoBackend (String.mk (c2 :: cs2))) st
      else .contSame (logOpt 'b' (some (String.mk (c2 :: cs2)))
        (setSelectedBackend (String.mk (c2 :: cs2)) st)) := rfl

theorem parseCluster_W_last_none (st : ConfigState) :
    parseCluster ['W'] none st = .exitC (.errOpt 'W') st := rfl

theorem parseCluster_W_last_some (a : String) (st : ConfigState) :
    parseCluster ['W'] (some a) st =
      .contTail (logOpt 'W' (some a) (setWindowWidth (atoi a) st)) := rfl

theorem parseCluster_W_inline (c2 : Char) (cs2 : List Char) (la : Option String)
    (st : ConfigState) :
    parseCluster ('W' :: c2 :: cs2) la st =
      .contSame (logOpt 'W' (some (String.mk (c2 :: cs2)))
        (setWindowWidth (atoi (String.mk (c2 :: cs2))) st)) := rfl

theorem parseCluster_H_last_none (st : ConfigState) :
    parseCluster ['H'] none st = .exitC (.errOpt 'H') st := rfl

theorem parseCluster_H_last_some (a : String) (st : ConfigState) :
    parseCluster ['H'] (some a) st =
      .contTail (logOpt 'H' (some a) (setWindowHeight (atoi a) st)) := rfl

theorem parseCluster_H_inline (c2 : Char) (cs2 : List Char) (la : Option String)
    (st : ConfigState) :
    parseCluster ('H' :: c2 :: cs2) la st =
      .contSame (logOpt 'H' (some (String.mk (c2 :: cs2)))
        (setWindowHeight (atoi (String.mk (c2 :: cs2))) st)) := rfl

/-- An option character outside the option string "b:fmW:H:BVh" makes
`getopt` return '?' and the `switch` call `die`. -/
theorem parseCluster_unknown (c : Char) (cs : List Char) (la : Option String)
    (st : ConfigState) (h : c ∉ ['h', 'V', 'B', 'f', 'm', 'b', 'W', 'H']) :
    parseCluster (c :: cs) la st = .exitC (.errOpt c) st := by
  simp only [List.mem_cons, List.not_mem_nil, or_false, not_or] at h
  obtain ⟨h1, h2, h3, h4, h5, h6, h7, h8⟩ := h
  simp only [parseCluster, if_neg h1, if_neg h2, if_neg h3, if_neg h4, if_neg h5,
    if_neg h6, if_neg h7, if_neg h8]

/-- When configuration exits the process, none of the later statements of
`main` run. -/
theorem mainRun_exited (env_w env_h : Option String) (args : List String)
    (ue : Bool) (oracle : Option String → Int) (k : ExitKind) (cst : ConfigState)
    (h : configure_simulator env_w env_h args = .exited k cst) :
    mainRun env_w env_h args ue oracle = exitStateOf k cst := by
  unfold mainRun
  rw [h]

/-- C1 counterexample: with both environment variables absent, the run with
arguments `-W 100` finishes configuration with `window_width = 100`, not
800, so "after configuration the settings record holds window_width = 800"
does not hold of every execution with the variables absent. -/
theorem c1_counterexample :
    configOkSettings (configure_simulator none none ["-W", "100"]) =
      some { window_width := 100, window_height := 480,
             fullscreen := false, maximize := false } ∧
    (100 : Int) ≠ 800 := by
  constructor
  · rfl
  · decide

/-- C1 (amended): when `LV_SIM_WINDOW_WIDTH`/`LV_SIM_WINDOW_HEIGHT` are
absent, `configure_simulator` initializes the settings to 800×480 before
option parsing, and an option-free invocation leaves exactly those values
after configuration; when a variable is present, its `atoi` value is used
for the initialization of the corresponding field instead.  (A later
`-W`/`-H` option may overwrite the initialized value, which is what defeats
the claim as frozen.) -/
theorem c1_env_defaults :
    (initialSettings none none).window_width = 800 ∧
    (initialSettings none none).window_height = 480 ∧
    (∀ (s : String) (e : Option String),
      (initialSettings (some s) e).window_width = atoi s) ∧
    (∀ (w : Option String) (s : String),
      (initialSettings w (some s)).window_height = atoi s) ∧
    configure_simulator none none [] = .ok (initialConfigState none none) :=
  ⟨by decide, by decide, fun s e => rfl, fun w s => rfl, rfl⟩

/-- C2: whenever the `getopt` loop processes a recognized flag, it updates
exactly the corresponding field of the settings record: 'f' sets
`fullscreen` to true, 'm' sets `maximize` to true, 'W' stores
`atoi(optarg)` into `window_width`, 'H' stores `atoi(optarg)` into
`window_height`, and 'b' with a supported backend name records that name in
`selected_backend`; in each case every other field is left unchanged. -/
theorem c2_flag_updates :
    (∀ (st : ConfigState) (la : Option String), ∃ st',
      parseCluster ['f'] la st = .contSame st' ∧
      st'.settings = { st.settings with fullscreen := true } ∧
      st'.selected_backend = st.selected_backend) ∧
    (∀ (st : ConfigState) (la : Option String), ∃ st',
      parseCluster ['m'] la st = .contSame st' ∧
      st'.settings = { st.settings with maximize := true } ∧
      st'.selected_backend = st.selected_backend) ∧
    (∀ (st : ConfigState) (a : String), ∃ st',
      parseCluster ['W'] (some a) st = .contTail st' ∧
      st'.settings = { st.settings with window_width := atoi a } ∧
      st'.selected_backend = st.selected_backend) ∧
    (∀ (st : ConfigState) (a : String), ∃ st',
      parseCluster ['H'] (some a) st = .contTail st' ∧
      st'.settings = { st.settings with window_height := atoi a } ∧
      st'.selected_backend = st.selected_backend) ∧
    (∀ (st : ConfigState) (a : String), driver_backends_is_supported a ≠ 0 → ∃ st',
      parseCluster ['b'] (some a) st = .contTail st' ∧
      st'.selected_backend = some a ∧
      st'.settings = st.settings) := by
  refine ⟨?_, ?_, ?_, ?_, ?_⟩
  · exact fun st la => ⟨logOpt 'f' none (setFullscreen st), rfl, rfl, rfl⟩
  · exact fun st la => ⟨logOpt 'm' none (setMaximize st), rfl, rfl, rfl⟩
  · exact fun st a => ⟨logOpt 'W' (some a) (setWindowWidth (atoi a) st), rfl, rfl, rfl⟩
  · exact fun st a => ⟨logOpt 'H' (some a) (setWindowHeight (atoi a) st), rfl, rfl, rfl⟩
  · intro st a h
    refine ⟨logOpt 'b' (some a) (setSelectedBackend a st), ?_, rfl, rfl⟩
    rw [parseCluster_b_last_some, if_neg h]

/-- C2 witness: the 'b' conjunct at the supported name "FBDEV" from the
default start state. -/
theorem c2_flag_updates_witness :
    ∃ st', parseCluster ['b'] (some "FBDEV") (initialConfigState none none) = .contTail st' ∧
      st'.selected_backend = some "FBDEV" ∧
      st'.settings = (initialConfigState none none).settings :=
  c2_flag_updates.2.2.2.2 (initialConfigState none none) "FBDEV" (by decide)

/-- C3 counterexample: the argument list `-Z -h` contains `-h`, yet the
process exits with status 1 (the unknown option `-Z` is hit first), so "for
every argument list containing -h the process exits with status 0" is
false. -/
theorem c3_counterexample :
    "-h" ∈ ["-Z", "-h"] ∧
    configResultExitCode (configure_simulator none none ["-Z", "-h"]) = some 1 ∧
    configResultExitCode (configure_simulator none none ["-Z", "-h"]) ≠ some 0 := by
  refine ⟨by decide, rfl, by decide⟩

/-- C3 (amended): when option scanning reaches `-h`, `-V` or `-B`, the
process prints the requested output (usage, LVGL version, backend list) and
exits with status 0 at that point; and whenever configuration exits the
process, none of the later statements of `main` run — no backend is
initialized and neither the demo nor the run loop is started (the event
list of the whole run is empty). -/
theorem c3_info_exits :
    (∀ (cs : List Char) (la : Option String) (st : ConfigState),
      parseCluster ('h' :: cs) la st = .exitC .usage st) ∧
    (∀ (cs : List Char) (la : Option String) (st : ConfigState),
      parseCluster ('V' :: cs) la st = .exitC .version st) ∧
    (∀ (cs : List Char) (la : Option String) (st : ConfigState),
      parseCluster ('B' :: cs) la st = .exitC .listBackends st) ∧
    exitCode .usage = 0 ∧ exitCode .version = 0 ∧ exitCode .listBackends = 0 ∧
    (∀ (env_w env_h : Option String) (args : List String) (ue : Bool)
      (oracle : Option String → Int) (k : ExitKind) (cst : ConfigState),
      configure_simulator env_w env_h args = .exited k cst →
      mainRun env_w env_h args ue oracle = exitStateOf k cst ∧
      (mainRun env_w env_h args ue oracle).events = [] ∧
      (mainRun env_w env_h args ue oracle).exitedWith = some (exitCode k)) := by
  refine ⟨parseCluster_h_eq, parseCluster_V_eq, parseCluster_B_eq, rfl, rfl, rfl, ?_⟩
  intro env_w env_h args ue oracle k cst h
  have hm := mainRun_exited env_w env_h args ue oracle k cst h
  exact ⟨hm, by rw [hm]; rfl, by rw [hm]; rfl⟩

/-- C3 witness: the run with the single argument `-V` exits with status 0
and performs none of the later statements of `main`. -/
theorem c3_info_exits_witness :
    mainRun none none ["-V"] false (fun _ => 0) =
      exitStateOf .version (initialConfigState none none) ∧
    (mainRun none none ["-V"] false (fun _ => 0)).exitedWith = some 0 := by
  have h := c3_info_exits.2.2.2.2.2.2 none none ["-V"] false (fun _ => 0) .version
    (initialConfigState none none) rfl
  exact ⟨h.1, h.2.2⟩

/-- C4 counterexample: the argument list `-V -Z` contains the unknown flag
`-Z`, yet the process exits with status 0 (the `-V` exit is hit first), so
"for every argument list containing an unknown flag the process terminates
with a non-zero exit status" is false. -/
theorem c4_counterexample :
    "-Z" ∈ ["-V", "-Z"] ∧
    configResultExitCode (configure_simulator none none ["-V", "-Z"]) = some 0 := by
  refine ⟨by decide, rfl⟩

/-- C4 (amended): when option scanning reaches an unknown flag, or a flag
requiring an argument with no argument available, the process prints a
diagnostic and terminates at that point with exit status 1 (nonzero), and
no later statement of `main` runs.  (Both cases go through `getopt`
returning '?', since the option string has no leading ':'.) -/
theorem c4_bad_options :
    (∀ (c : Char) (cs : List Char) (la : Option String) (st : ConfigState),
      c ∉ ['h', 'V', 'B', 'f', 'm', 'b', 'W', 'H'] →
      parseCluster (c :: cs) la st = .exitC (.errOpt c) st) ∧
    (∀ st : ConfigState, parseCluster ['b'] none st = .exitC (.errOpt 'b') st) ∧
    (∀ st : ConfigState, parseCluster ['W'] none st = .exitC (.errOpt 'W') st) ∧
    (∀ st : ConfigState, parseCluster ['H'] none st = .exitC (.errOpt 'H') st) ∧
    (∀ c : Char, exitCode (.errOpt c) ≠ 0) ∧
    (∀ (env_w env_h : Option String) (args : List String) (ue : Bool)
      (oracle : Option String → Int) (c : Char) (cst : ConfigState),
      configure_simulator env_w env_h args = .exited (.errOpt c) cst →
      (mainRun env_w env_h args ue oracle).exitedWith = some 1 ∧
      (mainRun env_w env_h args ue oracle).events = []) := by
  refine ⟨parseCluster_unknown, parseCluster_b_last_none, parseCluster_W_last_none,
    parseCluster_H_last_none, fun c => Nat.one_ne_zero, ?_⟩
  intro env_w env_h args ue oracle c cst h
  have hm := mainRun_exited env_w env_h args ue oracle (.errOpt c) cst h
  exact ⟨by rw [hm]; rfl, by rw [hm]; rfl⟩

/-- C4 witness: the unknown option 'Z' at the default start state, and the
run with the single argument `-Z` terminating with status 1. -/
theorem c4_bad_options_witness :
    parseCluster ['Z'] none (initialConfigState none none) =
      .exitC (.errOpt 'Z') (initialConfigState none none) ∧
    (mainRun none none ["-Z"] false (fun _ => 0)).exitedWith = some 1 :=
  ⟨c4_bad_options.1 'Z' [] none (initialConfigState none none) (by decide),
   (c4_bad_options.2.2.2.2.2 none none ["-Z"] false (fun _ => 0) 'Z'
     (initialConfigState none none) rfl).1⟩

/-- C5 counterexample: the argument list `-V -b ZZZ` contains `-b` with a
name outside the registry, yet the process exits with status 0 (the `-V`
exit is hit first), so "for every argument list containing -b with an
unsupported name the process terminates with non-zero status" is false. -/
theorem c5_counterexample :
    driver_backends_is_supported "ZZZ" = 0 ∧
    configResultExitCode (configure_simulator none none ["-V", "-b", "ZZZ"]) = some 0 := by
  refine ⟨by decide, rfl⟩

/-- C5 (amended): when option scanning reaches `-b` with a name that fails
the registry check, the process prints a diagnostic containing that name
and terminates at that point with exit status 1 (nonzero); the global state
at the exit is the entry state, so `selected_backend` is not updated from
that argument; and no later statement of `main` runs. -/
theorem c5_unsupported_backend (a : String)
    (h : driver_backends_is_supported a = 0) :
    (∀ st : ConfigState,
      parseCluster ['b'] (some a) st = .exitC (.errNoBackend a) st) ∧
    exitCode (.errNoBackend a) ≠ 0 ∧
    (∃ pre post, exitMessage (.errNoBackend a) = pre ++ a ++ post) ∧
    (∀ (env_w env_h : Option String) (args : List String) (ue : Bool)
      (oracle : Option String → Int) (cst : ConfigState),
      configure_simulator env_w env_h args = .exited (.errNoBackend a) cst →
      (mainRun env_w env_h args ue oracle).exitedWith = some 1 ∧
      (mainRun env_w env_h args ue oracle).events = []) := by
  refine ⟨?_, Nat.one_ne_zero, ⟨"error no such backend: ", "\n", rfl⟩, ?_⟩
  · intro st
    rw [parseCluster_b_last_some, if_pos h]
  · intro env_w env_h args ue oracle cst hc
    have hm := mainRun_exited env_w env_h args ue oracle (.errNoBackend a) cst hc
    exact ⟨by rw [hm]; rfl, by rw [hm]; rfl⟩

/-- C5 witness: the unsupported name "NOSUCH" dies at the point of
processing, leaving the state untouched, and the run with the arguments
`-b NOSUCH` terminates with status 1. -/
theorem c5_unsupported_backend_witness :
    parseCluster ['b'] (some "NOSUCH") (initialConfigState none none) =
      .exitC (.errNoBackend "NOSUCH") (initialConfigState none none) ∧
    (mainRun none none ["-b", "NOSUCH"] false (fun _ => 0)).exitedWith = some 1 :=
  ⟨(c5_unsupported_backend "NOSUCH" (by decide)).1 (initialConfigState none none),
   ((c5_unsupported_backend "NOSUCH" (by decide)).2.2.2 none none ["-b", "NOSUCH"]
     false (fun _ => 0) (initialConfigState none none) rfl).1⟩

/-- A guarded statement is a no-op once the process has exited. -/
theorem guardStep_exited (f : MainState → MainState) (st : MainState)
    (h : st.exitedWith.isSome) : guardStep f st = st := by
  unfold guardStep
  rw [if_pos h]

/-- Once the process has exited, all statements of `main` after the display
backend initialization are no-ops. -/
theorem stepsAfterBackend_exited (ue : Bool) (oracle : Option String → Int)
    (st : MainState) (h : st.exitedWith.isSome) :
    run_loop_step (slideshow_step (demo_step (evdev_init_step ue oracle st))) = st := by
  have e1 : evdev_init_step ue oracle st = st := by
    unfold evdev_init_step
    cases ue
    · rfl
    · simp only [if_pos]
      exact guardStep_exited _ _ h
  rw [e1]
  have e2 : demo_step st = st := guardStep_exited _ _ h
  rw [e2]
  have e3 : slideshow_step st = st := guardStep_exited _ _ h
  rw [e3]
  exact guardStep_exited _ _ h

/-- C6: whenever the selected display backend's initialization is reported
failed (the oracle returns -1 for the configured backend), the process
performs exactly toolkit initialization, the single failed backend
initialization, and the fatal diagnostic, then terminates with status 1: no
second backend initialization appears in the event list, no retry occurs,
and neither the demo nor the run loop is ever started. -/
theorem c6_backend_init_failure (env_w env_h : Option String) (args : List String)
    (cst : ConfigState) (ue : Bool) (oracle : Option String → Int)
    (hok : configure_simulator env_w env_h args = .ok cst)
    (hfail : oracle cst.selected_backend = -1) :
    (mainRun env_w env_h args ue oracle).exitedWith = some 1 ∧
    (mainRun env_w env_h args ue oracle).events =
      [.lvInitEv, .backendInitEv cst.selected_backend (-1),
       .dieEv "Failed to initialize display backend"] ∧
    MainEvent.demoWidgetsEv ∉ (mainRun env_w env_h args ue oracle).events ∧
    MainEvent.runLoopEv ∉ (mainRun env_w env_h args ue oracle).events := by
  have hdead : backend_init_step oracle (lv_init_step (stateOfConfig cst)) =
      { settings := cst.settings, selected_backend := cst.selected_backend,
        events := [.lvInitEv, .backendInitEv cst.selected_backend (-1),
          .dieEv "Failed to initialize display backend"],
        exitedWith := some 1 } := by
    unfold lv_init_step backend_init_step guardStep emit stateOfConfig
    simp only [Option.isSome_none, Bool.false_eq_true, if_false, hfail, if_pos]
    rfl
  have hm : mainRun env_w env_h args ue oracle =
      mainAfterConfigure ue oracle (stateOfConfig cst) := by
    unfold mainRun
    rw [hok]
  have hall : mainRun env_w env_h args ue oracle =
      { settings := cst.settings, selected_backend := cst.selected_backend,
        events := [.lvInitEv, .backendInitEv cst.selected_backend (-1),
          .dieEv "Failed to initialize display backend"],
        exitedWith := some 1 } := by
    rw [hm]
    unfold mainAfterConfigure
    rw [hdead]
    exact stepsAfterBackend_exited ue oracle _ rfl
  rw [hall]
  refine ⟨rfl, rfl, ?_, ?_⟩ <;> simp

/-- C6 witness: with empty arguments (so the default NULL backend is
configured) and an initialization that always fails, the process dies with
status 1 after exactly the three events. -/
theorem c6_backend_init_failure_witness :
    (mainRun none none [] false (fun _ => -1)).exitedWith = some 1 ∧
    (mainRun none none [] false (fun _ => -1)).events =
      [.lvInitEv, .backendInitEv none (-1),
       .dieEv "Failed to initialize display backend"] := by
  have h := c6_backend_init_failure none none [] (initialConfigState none none)
    false (fun _ => -1) rfl rfl
  exact ⟨h.1, h.2.1⟩

/-- The settings field is untouched by a guarded statement whose body keeps
it. -/
theorem settings_guardStep (f : MainState → MainState)
    (hf : ∀ s, (f s).settings = s.settings) (st : MainState) :
    (guardStep f st).settings = st.settings := by
  unfold guardStep
  split
  · rfl
  · exact hf st

theorem lv_init_step_settings (st : MainState) :
    (lv_init_step st).settings = st.settings :=
  settings_guardStep (fun s => emit .lvInitEv s) (fun _ => rfl) st

theorem backend_init_step_settings (oracle : Option String → Int) (st : MainState) :
    (backend_init_step oracle st).settings = st.settings := by
  refine settings_guardStep _ (fun s => ?_) st
  dsimp only [backend_init_step]
  split
  · rfl
  · rfl

theorem evdev_init_step_settings (ue : Bool) (oracle : Option String → Int)
    (st : MainState) :
    (evdev_init_step ue oracle st).settings = st.settings := by
  unfold evdev_init_step
  split
  · refine settings_guardStep _ (fun s => ?_) st
    dsimp only []
    split
    · rfl
    · rfl
  · rfl

theorem demo_step_settings (st : MainState) :
    (demo_step st).settings = st.settings :=
  settings_guardStep (fun s => emit .demoWidgetsEv s) (fun _ => rfl) st

theorem slideshow_step_settings (st : MainState) :
    (slideshow_step st).settings = st.settings :=
  settings_guardStep (fun s => emit .slideshowEv s) (fun _ => rfl) st

theorem run_loop_step_settings (st : MainState) :
    (run_loop_step st).settings = st.settings :=
  settings_guardStep (fun s => emit .runLoopEv s) (fun _ => rfl) st

/-- C7: the settings record is written only during startup configuration:
no statement of `main` after `configure_simulator` returns (toolkit init,
backend init, evdev init, demo start, run loop, or any `die`) modifies any
settings field, so the settings of the whole run equal the settings
`configure_simulator` produced. -/
theorem c7_settings_frame :
    (∀ (ue : Bool) (oracle : Option String → Int) (st : MainState),
      (mainAfterConfigure ue oracle st).settings = st.settings) ∧
    (∀ (env_w env_h : Option String) (args : List String) (ue : Bool)
      (oracle : Option String → Int) (cst : ConfigState),
      configure_simulator env_w env_h args = .ok cst →
      (mainRun env_w env_h args ue oracle).settings = cst.settings) := by
  have h1 : ∀ (ue : Bool) (oracle : Option String → Int) (st : MainState),
      (mainAfterConfigure ue oracle st).settings = st.settings := by
    intro ue oracle st
    unfold mainAfterConfigure
    rw [run_loop_step_settings, slideshow_step_settings, demo_step_settings,
      evdev_init_step_settings, backend_init_step_settings, lv_init_step_settings]
  refine ⟨h1, ?_⟩
  intro env_w env_h args ue oracle cst h
  have hm : mainRun env_w env_h args ue oracle =
      mainAfterConfigure ue oracle (stateOfConfig cst) := by
    unfold mainRun
    rw [h]
  rw [hm, h1]
  rfl

/-- C7 witness: the second conjunct at the option-free run with a
successful backend. -/
theorem c7_settings_frame_witness :
    (mainRun none none [] false (fun _ => 0)).settings =
      (initialConfigState none none).settings :=
  c7_settings_frame.2 none none [] false (fun _ => 0) (initialConfigState none none) rfl

/-- Appending a processed 'b' option appends its argument to the list of
'b' arguments. -/
theorem bArgs_append_b (l : List (Char × Option String)) (a : String) :
    bArgs (l ++ [('b', some a)]) = bArgs l ++ [a] := by
  unfold bArgs
  rw [List.filterMap_append]
  rfl

/-- Appending any other processed option leaves the 'b' arguments
unchanged. -/
theorem bArgs_append_other (l : List (Char × Option String)) (c : Char)
    (a : Option String) (h : c ≠ 'b') :
    bArgs (l ++ [(c, a)]) = bArgs l := by
  unfold bArgs
  rw [List.filterMap_append]
  simp [h]

/-- The selection invariant depends only on the selected-backend field and
the 'b' arguments of the log. -/
theorem selInv_congr (st st' : ConfigState)
    (h1 : st'.selected_backend = st.selected_backend)
    (h2 : bArgs st'.optLog = bArgs st.optLog) (h : selInv st) : selInv st' := by
  unfold selInv at h ⊢
  rw [h1, h2]
  exact h

/-- Scanning one option element preserves the selection invariant on every
continuing outcome. -/
theorem parseCluster_cont_selInv :
    ∀ (cs : List Char) (la : Option String) (st st' : ConfigState),
      selInv st →
      (parseCluster cs la st = .contSame st' ∨ parseCluster cs la st = .contTail st') →
      selInv st' := by
  intro cs
  induction cs with
  | nil =>
    intro la st st' h hc
    rcases hc with hc | hc
    · cases hc; exact h
    · exact ClusterOut.noConfusion hc
  | cons c cs ih =>
    intro la st st' h hc
    by_cases h1 : c = 'h'
    · subst h1; rw [parseCluster_h_eq] at hc
      rcases hc with hc | hc <;> exact ClusterOut.noConfusion hc
    by_cases h2 : c = 'V'
    · subst h2; rw [parseCluster_V_eq] at hc
      rcases hc with hc | hc <;> exact ClusterOut.noConfusion hc
    by_cases h3 : c = 'B'
    · subst h3; rw [parseCluster_B_eq] at hc
      rcases hc with hc | hc <;> exact ClusterOut.noConfusion hc
    by_cases h4 : c = 'f'
    · subst h4; rw [parseCluster_f_eq] at hc
      exact ih la _ st'
        (selInv_congr st (logOpt 'f' none (setFullscreen st)) rfl
          (bArgs_append_other st.optLog 'f' none (by decide)) h) hc
    by_cases h5 : c = 'm'
    · subst h5; rw [parseCluster_m_eq] at hc
      exact ih la _ st'
        (selInv_congr st (logOpt 'm' none (setMaximize st)) rfl
          (bArgs_append_other st.optLog 'm' none (by decide)) h) hc
    by_cases h6 : c = 'b'
    · subst h6
      cases cs with
      | nil =>
        cases la with
        | none =>
          rw [parseCluster_b_last_none] at hc
          rcases hc with hc | hc <;> exact ClusterOut.noConfusion hc
        | some a =>
          rw [parseCluster_b_last_some] at hc
          by_cases hs : driver_backends_is_supported a = 0
          · rw [if_pos hs] at hc
            rcases hc with hc | hc <;> exact ClusterOut.noConfusion hc
          · rw [if_neg hs] at hc
            rcases hc with hc | hc
            · exact ClusterOut.noConfusion hc
            · cases hc
              constructor
              · show (some a : Option String) =
                  (bArgs (st.optLog ++ [('b', some a)])).getLast?
                rw [bArgs_append_b, List.getLast?_concat]
              · intro n hn
                simp only [logOpt, setSelectedBackend] at hn
                rw [bArgs_append_b] at hn
                rcases List.mem_append.mp hn with hmem | hmem
                · exact h.2 n hmem
                · rw [List.mem_singleton.mp hmem]; exact hs
      | cons c2 cs2 =>
        rw [parseCluster_b_inline] at hc
        by_cases hs : driver_backends_is_supported (String.mk (c2 :: cs2)) = 0
        · rw [if_pos hs] at hc
          rcases hc with hc | hc <;> exact ClusterOut.noConfusion hc
        · rw [if_neg hs] at hc
          rcases hc with hc | hc
          · cases hc
            constructor
            · show (some (String.mk (c2 :: cs2)) : Option String) =
                (bArgs (st.optLog ++ [('b', some (String.mk (c2 :: cs2)))])).getLast?
              rw [bArgs_append_b, List.getLast?_concat]
            · intro n hn
              simp only [logOpt, setSelectedBackend] at hn
              rw [bArgs_append_b] at hn
              rcases List.mem_append.mp hn with hmem | hmem
              · exact h.2 n hmem
              · rw [List.mem_singleton.mp hmem]; exact hs
          · exact ClusterOut.noConfusion hc
    by_cases h7 : c = 'W'
    · subst h7
      cases cs with
      | nil =>
        cases la with
        | none =>
          rw [parseCluster_W_last_none] at hc
          rcases hc with hc | hc <;> exact ClusterOut.noConfusion hc
        | some a =>
          rw [parseCluster_W_last_some] at hc
          rcases hc with hc | hc
          · exact ClusterOut.noConfusion hc
          · cases hc
            exact selInv_congr st (logOpt 'W' (some a) (setWindowWidth (atoi a) st)) rfl
              (bArgs_append_other st.optLog 'W' (some a) (by decide)) h
      | cons c2 cs2 =>
        rw [parseCluster_W_inline] at hc
        rcases hc with hc | hc
        · cases hc
          exact selInv_congr st
            (logOpt 'W' (some (String.mk (c2 :: cs2)))
              (setWindowWidth (atoi (String.mk (c2 :: cs2))) st)) rfl
            (bArgs_append_other st.optLog 'W' (some (String.mk (c2 :: cs2))) (by decide)) h
        · exact ClusterOut.noConfusion hc
    by_cases h8 : c = 'H'
    · subst h8
      cases cs with
      | nil =>
        cases la with
        | none =>
          rw [parseCluster_H_last_none] at hc
          rcases hc with hc | hc <;> exact ClusterOut.noConfusion hc
        | some a =>
          rw [parseCluster_H_last_some] at hc
          rcases hc with hc | hc
          · exact ClusterOut.noConfusion hc
          · cases hc
            exact selInv_congr st (logOpt 'H' (some a) (setWindowHeight (atoi a) st)) rfl
              (bArgs_append_other st.optLog 'H' (some a) (by decide)) h
      | cons c2 cs2 =>
        rw [parseCluster_H_inline] at hc
        rcases hc with hc | hc
        · cases hc
          exact selInv_congr st
            (logOpt 'H' (some (String.mk (c2 :: cs2)))
              (setWindowHeight (atoi (String.mk (c2 :: cs2))) st)) rfl
            (bArgs_append_other st.optLog 'H' (some (String.mk (c2 :: cs2))) (by decide)) h
        · exact ClusterOut.noConfusion hc
    rw [parseCluster_unknown c cs la st (by simp [h1, h2, h3, h4, h5, h6, h7, h8])] at hc
    rcases hc with hc | hc <;> exact ClusterOut.noConfusion hc

/-- The `getopt` loop preserves the selection invariant on every normal
return. -/
theorem parseOpts_ok_selInv :
    ∀ (n : Nat) (toks : List String) (st st' : ConfigState),
      toks.length ≤ n → selInv st → parseOpts toks st = .ok st' → selInv st' := by
  intro n
  induction n with
  | zero =>
    intro toks st st' hlen h hp
    have ht : toks = [] := List.eq_nil_of_length_eq_zero (Nat.le_zero.mp hlen)
    subst ht
    cases hp; exact h
  | succ n ih =>
    intro toks st st' hlen h hp
    cases toks with
    | nil => cases hp; exact h
    | cons tok rest =>
      have hlen' : rest.length ≤ n := Nat.le_of_succ_le_succ hlen
      simp only [parseOpts] at hp
      split at hp
      · cases hp; exact h
      · rename_i cs heq
        split at hp
        · exact ConfigResult.noConfusion hp
        · rename_i st1 hcl
          exact ih rest st1 st' hlen'
            (parseCluster_cont_selInv cs rest.head? st st1 h (Or.inl hcl)) hp
        · rename_i st1 hcl
          have h1 : selInv st1 :=
            parseCluster_cont_selInv cs rest.head? st st1 h (Or.inr hcl)
          split at hp
          · cases hp; exact h1
          · rename_i x rest2
            exact ih rest2 st1 st' (Nat.le_trans (Nat.le_succ _) hlen') h1 hp
      · exact ih rest st st' hlen' h hp

/-- C8 counterexample: the argument list `-- -b FBDEV` contains the `-b`
flag with a supported name, yet configuration returns normally with
`selected_backend` NULL: `getopt` stops at "--", so the flag is never
processed and "non-NULL iff a -b flag with a supported name appeared in the
arguments" is false. -/
theorem c8_counterexample :
    "-b" ∈ ["--", "-b", "FBDEV"] ∧
    driver_backends_is_supported "FBDEV" ≠ 0 ∧
    configure_simulator none none ["--", "-b", "FBDEV"] =
      .ok (initialConfigState none none) ∧
    (initialConfigState none none).selected_backend = none := by
  refine ⟨by decide, by decide, rfl, rfl⟩

/-- C8 (amended): after `configure_simulator` returns normally,
`selected_backend` holds the argument of the last 'b' option the `getopt`
loop processed (NULL when none was processed; options skipped by "--" or
consumed as another option's argument do not count), so it is non-NULL iff
some 'b' option was processed; every processed 'b' argument passed the
registry check; and when no 'b' option was processed the dispatcher is
invoked with NULL, which selects the default backend. -/
theorem c8_selected_backend (env_w env_h : Option String) (args : List String)
    (cst : ConfigState)
    (h : configure_simulator env_w env_h args = .ok cst) :
    cst.selected_backend = (bArgs cst.optLog).getLast? ∧
    (cst.selected_backend ≠ none ↔ bArgs cst.optLog ≠ []) ∧
    (∀ n ∈ bArgs cst.optLog, driver_backends_is_supported n ≠ 0) ∧
    (bArgs cst.optLog = [] →
      dispatchedBackendName cst.selected_backend = defaultBackendName) := by
  have h0 : selInv (initialConfigState env_w env_h) := by
    constructor
    · rfl
    · intro n hn
      exact absurd hn (List.not_mem_nil n)
  have hinv : selInv cst :=
    parseOpts_ok_selInv args.length args (initialConfigState env_w env_h) cst
      le_rfl h0 h
  refine ⟨hinv.1, ?_, hinv.2, ?_⟩
  · rw [hinv.1]
    constructor
    · intro hne hnil
      rw [hnil] at hne
      exact hne rfl
    · intro hne hlast
      exact hne (List.getLast?_eq_none_iff.mp hlast)
  · intro hnil
    rw [hinv.1, hnil]
    rfl

/-- C8 witness: the run `-b SDL` ends with `selected_backend` holding the
last (only) processed 'b' argument. -/
theorem c8_selected_backend_witness :
    ({ settings := initialSettings none none, selected_backend := some "SDL",
       optLog := [('b', some "SDL")] } : ConfigState).selected_backend =
      (bArgs [('b', some "SDL")]).getLast? :=
  (c8_selected_backend none none ["-b", "SDL"]
    { settings := initialSettings none none, selected_backend := some "SDL",
      optLog := [('b', some "SDL")] } rfl).1

/-- Every character of the whitespace-stripped list occurs in the original
list. -/
theorem dropSpaces_mem : ∀ (l : List Char) (c : Char), c ∈ dropSpaces l → c ∈ l := by
  intro l
  induction l with
  | nil => intro c hc; exact hc
  | cons x xs ih =>
    intro c hc
    unfold dropSpaces at hc
    split at hc
    · exact List.mem_cons_of_mem x (ih c hc)
    · exact hc

/-- The digit loop leaves the accumulator unchanged when the head is not a
digit. -/
theorem digitsAcc_not_digit (l : List Char) (acc : Int)
    (h : ∀ c ∈ l, c.isDigit = false) : digitsAcc l acc = acc := by
  cases l with
  | nil => rfl
  | cons c cs =>
    have hc : c.isDigit = false := h c (List.mem_cons_self c cs)
    unfold digitsAcc
    rw [hc]
    simp

/-- Reduction of the sign dispatch when the head is neither sign. -/
theorem atoiSigned_other (c : Char) (rest : List Char)
    (h1 : c ≠ '-') (h2 : c ≠ '+') :
    atoiSigned (c :: rest) = digitsAcc (c :: rest) 0 := by
  unfold atoiSigned
  split
  · rename_i r heq
    rw [List.cons.injEq] at heq
    exact absurd heq.1 h1
  · rename_i r heq
    rw [List.cons.injEq] at heq
    exact absurd heq.1 h2
  · rfl

/-- A string with no digit anywhere converts to 0. -/
theorem atoiSigned_no_digit (l : List Char)
    (h : ∀ c ∈ l, c.isDigit = false) : atoiSigned l = 0 := by
  cases l with
  | nil => rfl
  | cons c rest =>
    by_cases h1 : c = '-'
    · subst h1
      rw [show atoiSigned ('-' :: rest) = - digitsAcc rest 0 from rfl,
        digitsAcc_not_digit rest 0 (fun d hd => h d (List.mem_cons_of_mem _ hd))]
      exact neg_zero
    · by_cases h2 : c = '+'
      · subst h2
        rw [show atoiSigned ('+' :: rest) = digitsAcc rest 0 from rfl]
        exact digitsAcc_not_digit rest 0 (fun d hd => h d (List.mem_cons_of_mem _ hd))
      · rw [atoiSigned_other c rest h1 h2]
        exact digitsAcc_not_digit _ 0 h

/-- The digit loop never drives a nonnegative accumulator negative. -/
theorem digitsAcc_nonneg : ∀ (l : List Char) (acc : Int),
    0 ≤ acc → 0 ≤ digitsAcc l acc := by
  intro l
  induction l with
  | nil => intro acc h; exact h
  | cons c cs ih =>
    intro acc h
    unfold digitsAcc
    by_cases hc : c.isDigit
    · rw [hc]
      simp only [if_true]
      refine ih _ ?_
      have : (0 : Int) ≤ ((c.toNat - '0'.toNat : Nat) : Int) := Int.natCast_nonneg _
      nlinarith
    · rw [Bool.not_eq_true] at hc
      rw [hc]
      simpa using h

/-- C9: the arguments of 'W' and 'H' are converted with `atoi` and stored
without any validation: the update is unconditional (scanning continues, no
diagnostic path exists for these options), a string containing no digit is
stored as 0, and a minus sign followed by digits is stored as the negated
digit value (nonpositive, strictly negative when the digits are nonzero). -/
theorem c9_atoi_unvalidated :
    (∀ (st : ConfigState) (a : String), ∃ st',
      parseCluster ['W'] (some a) st = .contTail st' ∧
      st'.settings.window_width = atoi a) ∧
    (∀ (st : ConfigState) (a : String), ∃ st',
      parseCluster ['H'] (some a) st = .contTail st' ∧
      st'.settings.window_height = atoi a) ∧
    (∀ s : String, (∀ c ∈ s.toList, c.isDigit = false) → atoi s = 0) ∧
    (∀ cs : List Char,
      atoi (String.mk ('-' :: cs)) = - digitsAcc cs 0 ∧ 0 ≤ digitsAcc cs 0) := by
  refine ⟨?_, ?_, ?_, ?_⟩
  · exact fun st a => ⟨logOpt 'W' (some a) (setWindowWidth (atoi a) st), rfl, rfl⟩
  · exact fun st a => ⟨logOpt 'H' (some a) (setWindowHeight (atoi a) st), rfl, rfl⟩
  · intro s h
    unfold atoi
    exact atoiSigned_no_digit _ (fun c hc => h c (dropSpaces_mem _ c hc))
  · intro cs
    exact ⟨rfl, digitsAcc_nonneg cs 0 le_rfl⟩

/-- C9 witness: a non-numeric width argument is stored as 0 and a negative
one as its negative value. -/
theorem c9_atoi_unvalidated_witness :
    atoi "abc" = 0 ∧ atoi "-5" = - digitsAcc ['5'] 0 :=
  ⟨c9_atoi_unvalidated.2.2.1 "abc" (by decide), (c9_atoi_unvalidated.2.2.2 ['5']).1⟩

/-- The empty-bodied loop never produces an exit value. -/
theorem spinReturn_none : ∀ fuel : Nat, spinReturn fuel = none := by
  intro fuel
  induction fuel with
  | zero => rfl
  | succ n ih => exact ih

/-- C10: the alternate `main` (built when `USE_STANDARD` is undefined)
ignores `argc`, `argv` and the environment entirely — its outcome does not
depend on them; it hardcodes the backend name "FBDEV"; and when the backend
initializes, the run reaches the trailing unconditional `while (1)` loop
after the run loop returns and stays there: no iteration count makes it
return, so `main` never returns. -/
theorem c10_alt_main :
    (∀ (a a' : Nat) (v v' : List String) (w w' x x' : Option String)
      (oracle : Option String → Int) (fuel : Nat),
      altMainRun a v w x oracle fuel = altMainRun a' v' w' x' oracle fuel) ∧
    (∀ (a : Nat) (v : List String) (w x : Option String)
      (oracle : Option String → Int) (fuel : Nat),
      oracle (some "FBDEV") ≠ -1 →
      altMainRun a v w x oracle fuel =
        .running [.registerEv, .lvInitAltEv,
          .backendInitAltEv "FBDEV" (oracle (some "FBDEV")),
          .drawCharEv, .runLoopAltEv]) ∧
    (∀ fuel : Nat, spinReturn fuel = none) ∧
    (∀ (a : Nat) (v : List String) (w x : Option String)
      (oracle : Option String → Int) (fuel : Nat) (c : Int) (ev : List AltEvent),
      altMainRun a v w x oracle fuel ≠ .returned c ev) := by
  refine ⟨fun a a' v v' w w' x x' oracle fuel => rfl, ?_, spinReturn_none, ?_⟩
  · intro a v w x oracle fuel h
    unfold altMainRun
    rw [if_neg h, spinReturn_none fuel]
    rfl
  · intro a v w x oracle fuel c ev h
    unfold altMainRun at h
    by_cases hr : oracle (some "FBDEV") = -1
    · rw [if_pos hr] at h
      exact AltOutcome.noConfusion h
    · rw [if_neg hr, spinReturn_none fuel] at h
      exact AltOutcome.noConfusion h

/-- C10 witness: with a succeeding backend the alternate `main` is left
spinning in the infinite loop, with the hardcoded "FBDEV" backend in its
event list. -/
theorem c10_alt_main_witness :
    altMainRun 1 ["lvglsim"] none none (fun _ => 0) 5 =
      .running [.registerEv, .lvInitAltEv, .backendInitAltEv "FBDEV" 0,
        .drawCharEv, .runLoopAltEv] :=
  c10_alt_main.2.1 1 ["lvglsim"] none none (fun _ => 0) 5 (by decide)
